import Mathlib

/-!
Shallow embedding of the AI-DEEPSEEK-TRADER simulation core:
technical indicators, risk manager (circuit breaker, sizing, stop/take
levels), backtest execution (open/close position), performance tracker
(equity curve, Sharpe ratio), and the paper-trading poll step.

JavaScript numbers are modelled as rationals (`ℚ`); timestamps as `ℤ`
(millisecond epoch values).  Square roots (Bollinger / VWAP bands,
Sharpe standard deviation) live in `ℝ` via `Real.sqrt`.  JavaScript
truthiness of optional numeric arguments (`if (x)`) is modelled as
"present and nonzero".  `Date.now()` is passed in explicitly as a
`wallClock` / `now` parameter so that the embedding stays pure.
-/

namespace Trader

/-- OHLCV candle.  The JS field `open` is a Lean keyword, hence `openPrice`. -/
structure OHLCV where
  timestamp : Int
  openPrice : ℚ
  high : ℚ
  low : ℚ
  close : ℚ
  volume : ℚ
deriving DecidableEq, Repr

/-- Risk parameters (types/index.ts `RiskParameters`). -/
structure RiskParameters where
  maxRiskPerTrade : ℚ
  maxDrawdown : ℚ
  dailyLossLimit : ℚ
  maxConsecutiveLosses : Nat
  minSharpeRatio : ℚ
  stopLossPercentage : ℚ
  takeProfitPercentage : ℚ
  maxPositionSize : ℚ
  circuitBreakerRecoveryMinutes : Nat
deriving DecidableEq, Repr

/-- Trade action of an AI decision. -/
inductive Action where
  | buy
  | sell
  | hold
deriving DecidableEq, Repr

/-- AI decision (types/index.ts `AIDecision`).  Optional numeric fields are
`Option ℚ`; the JS code tests them with truthiness, i.e. present-and-nonzero. -/
structure AIDecision where
  action : Action
  confidence : ℚ
  quantity : Option ℚ
  stopLoss : Option ℚ
  takeProfit : Option ℚ
  reasoning : String
deriving DecidableEq, Repr

/-- Portfolio state.  `holdings` is the symbol → quantity map, kept as an
association list. -/
structure Portfolio where
  cash : ℚ
  holdings : List (String × ℚ)
  totalEquity : ℚ
  timestamp : Int
deriving DecidableEq, Repr

/-- Position side. -/
inductive Side where
  | long
  | short
deriving DecidableEq, Repr

/-- Open position (types/index.ts `Position`). -/
structure Position where
  symbol : String
  entryPrice : ℚ
  quantity : ℚ
  side : Side
  entryTime : Int
  stopLoss : ℚ
  takeProfit : ℚ
  currentPrice : ℚ
  unrealizedPnL : ℚ
deriving DecidableEq, Repr

/-- Equity-curve point. -/
structure EquityPoint where
  timestamp : Int
  equity : ℚ
deriving DecidableEq, Repr

/-- Rejection / halt reasons produced by the risk manager.  The JS code
builds formatted strings; the embedding keeps the reason's identity and its
numeric parameters and drops only the decimal formatting. -/
inductive Reason where
  | consecutiveLosses (n : Nat) (maxAllowed : Nat)
  | dailyLossLimit (lossPercentage : ℚ) (limit : ℚ)
  | maxDrawdownExceeded (ddPercentage : ℚ) (limit : ℚ)
  | insufficientCash (required : ℚ) (available : ℚ)
  | positionAlreadyOpen
  | noOpenPosition
  | tradingHaltedWith (inner : Reason)
deriving DecidableEq, Repr

/-- Result of a risk check (types/index.ts `RiskCheck`). -/
structure RiskCheck where
  allowed : Bool
  reason : Option Reason
  adjustedQuantity : Option ℚ
deriving DecidableEq, Repr

/-- An allowed check with no extras. -/
def RiskCheck.ok : RiskCheck := ⟨true, none, none⟩

/-- A rejected check carrying its reason. -/
def RiskCheck.rejected (r : Reason) : RiskCheck := ⟨false, some r, none⟩

/-- Mutable state of the `RiskManager` (fields `tradingHalted`,
`haltReason`, `haltTimestamp`; the initial JS values are `false`, `''`, `0`,
the empty string becoming `none`). -/
structure RMState where
  tradingHalted : Bool
  haltReason : Option Reason
  haltTimestamp : Int
deriving DecidableEq, Repr

/-- Initial risk-manager state. -/
def RMState.initial : RMState := ⟨false, none, 0⟩

/-- The slice of `PerformanceStats` consumed by the risk manager plus the
fields the tracker maintains.  Mirrors types/index.ts `PerformanceStats`;
`sharpeRatio` is real-valued because the code takes a square root. -/
structure PerformanceStats where
  totalTrades : Nat
  winningTrades : Nat
  losingTrades : Nat
  winRate : ℚ
  totalPnL : ℚ
  totalPnLPercentage : ℚ
  averageWin : ℚ
  averageLoss : ℚ
  largestWin : ℚ
  largestLoss : ℚ
  profitFactor : ℚ
  sharpeRatio : ℝ
  maxDrawdown : ℚ
  maxDrawdownPercentage : ℚ
  currentDrawdown : ℚ
  consecutiveWins : Nat
  consecutiveLosses : Nat
  maxConsecutiveWins : Nat
  maxConsecutiveLosses : Nat
  averageHoldingPeriod : ℚ
  averageRiskRewardRatio : ℚ
  expectancy : ℚ
  equityCurve : List EquityPoint
  startTime : Int
  lastUpdateTime : Int
  tradingDays : ℚ

namespace RiskManager

/-- risk-manager.ts `checkConsecutiveLosses`. -/
def checkConsecutiveLosses (params : RiskParameters) (stats : PerformanceStats) :
    RiskCheck :=
  if stats.consecutiveLosses ≥ params.maxConsecutiveLosses then
    .rejected (.consecutiveLosses stats.consecutiveLosses params.maxConsecutiveLosses)
  else .ok

/-- risk-manager.ts `checkDailyLossLimit`: uses `|currentDrawdown| / 100`
as the loss fraction. -/
def checkDailyLossLimit (params : RiskParameters) (stats : PerformanceStats) :
    RiskCheck :=
  let lossPercentage := |stats.currentDrawdown| / 100
  if lossPercentage ≥ params.dailyLossLimit then
    .rejected (.dailyLossLimit lossPercentage params.dailyLossLimit)
  else .ok

/-- risk-manager.ts `checkMaxDrawdown`. -/
def checkMaxDrawdown (params : RiskParameters) (stats : PerformanceStats) :
    RiskCheck :=
  if stats.maxDrawdownPercentage / 100 ≥ params.maxDrawdown then
    .rejected (.maxDrawdownExceeded stats.maxDrawdownPercentage params.maxDrawdown)
  else .ok

/-- risk-manager.ts `checkPositionSize`: never rejects, may clamp the
AI-suggested portfolio fraction. -/
def checkPositionSize (params : RiskParameters) (decision : AIDecision) : RiskCheck :=
  match decision.quantity with
  | some q =>
      if q ≠ 0 ∧ q > params.maxPositionSize then
        ⟨true, none, some params.maxPositionSize⟩
      else .ok
  | none => .ok

/-- risk-manager.ts `checkSufficientCash`. -/
def checkSufficientCash (decision : AIDecision) (portfolio : Portfolio) : RiskCheck :=
  let requiredCash :=
    match decision.quantity with
    | some q => if q ≠ 0 then portfolio.totalEquity * q else portfolio.totalEquity * (1/10)
    | none => portfolio.totalEquity * (1/10)
  if portfolio.cash < requiredCash then
    .rejected (.insufficientCash requiredCash portfolio.cash)
  else .ok

/-- risk-manager.ts `haltTrading`.  `timestamp || Date.now()` is JS
truthiness: a present, nonzero timestamp wins, otherwise the wall clock. -/
def haltTrading (reason : Reason) (timestamp : Option Int) (wallClock : Int)
    (st : RMState) : RMState :=
  { st with
    tradingHalted := true
    haltReason := some reason
    haltTimestamp :=
      match timestamp with
      | some t => if t ≠ 0 then t else wallClock
      | none => wallClock }

/-- risk-manager.ts `resumeTrading`. -/
def resumeTrading (st : RMState) : RMState :=
  if st.tradingHalted then ⟨false, none, 0⟩ else st

/-- risk-manager.ts `checkAutoRecovery`: while halted and the recovery
window is nonzero, resume once the elapsed time since the halt reaches the
window (milliseconds). -/
def checkAutoRecovery (params : RiskParameters) (currentTimestamp : Int)
    (st : RMState) : RMState :=
  if ¬st.tradingHalted ∨ params.circuitBreakerRecoveryMinutes = 0 then st
  else
    let recoveryTimeMs : Int := (params.circuitBreakerRecoveryMinutes : Int) * 60 * 1000
    let elapsedTime := currentTimestamp - st.haltTimestamp
    if elapsedTime ≥ recoveryTimeMs then resumeTrading st else st

/-- risk-manager.ts `checkTradeAllowed`, check sequence: everything after
the auto-recovery step, starting from the (possibly already recovered)
state. -/
def checkTradeAllowedCore (params : RiskParameters) (decision : AIDecision)
    (portfolio : Portfolio) (stats : PerformanceStats)
    (currentPosition : Option Position) (currentTimestamp : Option Int)
    (wallClock : Int) (st : RMState) : RiskCheck × RMState :=
  if st.tradingHalted then
    (⟨false, some (.tradingHaltedWith (st.haltReason.getD .positionAlreadyOpen)), none⟩, st)
  else
    let c1 := checkConsecutiveLosses params stats
    if ¬c1.allowed then (c1, haltTrading (c1.reason.getD .positionAlreadyOpen) currentTimestamp wallClock st)
    else
      let c2 := checkDailyLossLimit params stats
      if ¬c2.allowed then (c2, haltTrading (c2.reason.getD .positionAlreadyOpen) currentTimestamp wallClock st)
      else
        let c3 := checkMaxDrawdown params stats
        if ¬c3.allowed then (c3, haltTrading (c3.reason.getD .positionAlreadyOpen) currentTimestamp wallClock st)
        else
          -- Sharpe-ratio check only logs a warning; no state effect
          let sizeOk :=
            match decision.action with
            | .buy => checkPositionSize params decision
            | _ => RiskCheck.ok
          if ¬sizeOk.allowed then (sizeOk, st)
          else
            let cashOk :=
              match decision.action with
              | .buy => checkSufficientCash decision portfolio
              | _ => RiskCheck.ok
            if ¬cashOk.allowed then (cashOk, st)
            else
              match decision.action, currentPosition with
              | .buy, some _ => (.rejected .positionAlreadyOpen, st)
              | .sell, none => (.rejected .noOpenPosition, st)
              | _, _ => (.ok, st)

/-- risk-manager.ts `checkTradeAllowed`: auto-recovery runs first (only when
halted and with a truthy timestamp), then the check sequence; `wallClock`
stands for `Date.now()`. -/
def checkTradeAllowed (params : RiskParameters) (decision : AIDecision)
    (portfolio : Portfolio) (stats : PerformanceStats)
    (currentPosition : Option Position) (currentTimestamp : Option Int)
    (wallClock : Int) (st : RMState) : RiskCheck × RMState :=
  let st :=
    match currentTimestamp with
    | some t => if st.tradingHalted ∧ t ≠ 0 then checkAutoRecovery params t st else st
    | none => st
  checkTradeAllowedCore params decision portfolio stats currentPosition
    currentTimestamp wallClock st

/-- risk-manager.ts `calculatePositionSize`: risk-based size, clamped by the
max-position fraction and, when present and nonzero, by the AI-suggested
cash fraction. -/
def calculatePositionSize (params : RiskParameters) (decision : AIDecision)
    (portfolio : Portfolio) (currentPrice : ℚ) : ℚ :=
  let maxRiskAmount := portfolio.totalEquity * params.maxRiskPerTrade
  let stopLossDistance :=
    match decision.stopLoss with
    | some s => if s ≠ 0 then |currentPrice - s| else currentPrice * params.stopLossPercentage
    | none => currentPrice * params.stopLossPercentage
  let positionSize := maxRiskAmount / stopLossDistance
  let maxPositionValue := portfolio.totalEquity * params.maxPositionSize
  let maxQuantity := maxPositionValue / currentPrice
  let positionSize := min positionSize maxQuantity
  match decision.quantity with
  | some q =>
      if q ≠ 0 then min positionSize (portfolio.cash * q / currentPrice)
      else positionSize
  | none => positionSize

/-- risk-manager.ts `calculateStopLoss`: a present, nonzero suggestion is
accepted when its relative distance from entry is within
`[0.5, 2] × stopLossPercentage`; otherwise the configured percentage from
entry, below entry for a long and above for a short. -/
def calculateStopLoss (params : RiskParameters) (entryPrice : ℚ) (side : Side)
    (aiStopLoss : Option ℚ) : ℚ :=
  let fallback :=
    match side with
    | .long => entryPrice * (1 - params.stopLossPercentage)
    | .short => entryPrice * (1 + params.stopLossPercentage)
  match aiStopLoss with
  | some s =>
      if s ≠ 0 then
        let distance := |entryPrice - s| / entryPrice
        if distance ≥ params.stopLossPercentage * (1/2) ∧
           distance ≤ params.stopLossPercentage * 2 then s
        else fallback
      else fallback
  | none => fallback

/-- risk-manager.ts `calculateTakeProfit`: like `calculateStopLoss` with the
acceptance band `[0.5, 3] × takeProfitPercentage` and the opposite fallback
sign. -/
def calculateTakeProfit (params : RiskParameters) (entryPrice : ℚ) (side : Side)
    (aiTakeProfit : Option ℚ) : ℚ :=
  let fallback :=
    match side with
    | .long => entryPrice * (1 + params.takeProfitPercentage)
    | .short => entryPrice * (1 - params.takeProfitPercentage)
  match aiTakeProfit with
  | some s =>
      if s ≠ 0 then
        let distance := |s - entryPrice| / entryPrice
        if distance ≥ params.takeProfitPercentage * (1/2) ∧
           distance ≤ params.takeProfitPercentage * 3 then s
        else fallback
      else fallback
  | none => fallback

end RiskManager

/-- Last `n` elements of a list (JS `slice(-n)`; for `n` ≥ length, the whole
list). -/
def takeLast (l : List α) (n : Nat) : List α := l.drop (l.length - n)

/-- Minimum of a list (JS `Math.min(...l)`); callers guard non-emptiness. -/
def listMin (l : List ℚ) : ℚ :=
  match l with
  | [] => 0
  | h :: t => t.foldl min h

/-- Maximum of a list (JS `Math.max(...l)`). -/
def listMax (l : List ℚ) : ℚ :=
  match l with
  | [] => 0
  | h :: t => t.foldl max h

namespace Indicators

/-- technical-indicators.ts `calculateSMA`: average of the trailing `period`
values, degrading `period` to the list length when fewer values exist. -/
def calculateSMA (values : List ℚ) (period : Nat) : ℚ :=
  let period := min period values.length
  (takeLast values period).sum / period

/-- technical-indicators.ts `calculateEMA`: seeded with the SMA of the first
`period` values, then the standard exponential recursion with multiplier
`2/(period+1)`; for fewer values than `period`, the SMA of all of them. -/
def calculateEMA (prices : List ℚ) (period : Nat) : ℚ :=
  if prices.length = 0 then 0
  else if prices.length < period then calculateSMA prices prices.length
  else
    let multiplier : ℚ := 2 / (period + 1)
    (prices.drop period).foldl
      (fun ema p => (p - ema) * multiplier + ema)
      (calculateSMA (prices.take period) period)

/-- Close-to-close price changes (`changes[i] = prices[i+1] - prices[i]`). -/
def changesOf (prices : List ℚ) : List ℚ :=
  List.zipWith (fun prev next => next - prev) prices prices.tail

/-- technical-indicators.ts `calculateRSI`: neutral 50 below `period+1`
prices; otherwise Wilder-style simple averaging of the trailing `period`
gains and losses, with RSI 100 when the average loss is zero. -/
def calculateRSI (prices : List ℚ) (period : Nat) : ℚ :=
  if prices.length < period + 1 then 50
  else
    let recentChanges := takeLast (changesOf prices) period
    let gains := (recentChanges.map (fun c => if c > 0 then c else 0)).sum
    let losses := (recentChanges.map (fun c => if c > 0 then 0 else |c|)).sum
    let avgGain := gains / period
    let avgLoss := losses / period
    if avgLoss = 0 then 100
    else
      let rs := avgGain / avgLoss
      100 - 100 / (1 + rs)

/-- MACD triple. -/
structure MACDResult where
  macd : ℚ
  signal : ℚ
  histogram : ℚ
deriving DecidableEq, Repr

/-- technical-indicators.ts `calculateMACD`: EMA12 − EMA26 with the signal
line approximated as `0.9 × MACD`. -/
def calculateMACD (prices : List ℚ) : MACDResult :=
  let macd := calculateEMA prices 12 - calculateEMA prices 26
  let signal := macd * (9/10)
  { macd := macd, signal := signal, histogram := macd - signal }

/-- Population variance of the trailing `period` values around their SMA;
this is the radicand of technical-indicators.ts `calculateStandardDeviation`. -/
def varianceOf (values : List ℚ) (period : Nat) : ℚ :=
  let period := min period values.length
  let recentValues := takeLast values period
  let mean := calculateSMA values period
  (recentValues.map (fun v => (v - mean) ^ 2)).sum / period

/-- technical-indicators.ts `calculateStandardDeviation`. -/
noncomputable def calculateStandardDeviation (values : List ℚ) (period : Nat) : ℝ :=
  Real.sqrt (varianceOf values period)

/-- Bollinger bands (real-valued because of the standard deviation). -/
structure BollingerBands where
  upper : ℝ
  middle : ℝ
  lower : ℝ

/-- technical-indicators.ts `calculateBollingerBands`. -/
noncomputable def calculateBollingerBands (prices : List ℚ) (period : Nat)
    (stdDevFactor : ℚ) : BollingerBands :=
  let middle : ℝ := (calculateSMA prices period : ℚ)
  let sd := calculateStandardDeviation prices period
  { upper := middle + (stdDevFactor : ℝ) * sd
    middle := middle
    lower := middle - (stdDevFactor : ℝ) * sd }

/-- VWAP with ±1σ and ±2σ bands. -/
structure VWAPResult where
  value : ℝ
  stdDev1Upper : ℝ
  stdDev1Lower : ℝ
  stdDev2Upper : ℝ
  stdDev2Lower : ℝ

/-- Typical price `(H+L+C)/3`. -/
def typicalPrice (c : OHLCV) : ℚ := (c.high + c.low + c.close) / 3

/-- technical-indicators.ts `calculateVWAP`: full-window cumulative VWAP
with standard-deviation bands from the dispersion of typical prices. -/
noncomputable def calculateVWAP (candles : List OHLCV) : VWAPResult :=
  let typicalPrices := candles.map typicalPrice
  let cumulativeTPV := (candles.map (fun c => typicalPrice c * c.volume)).sum
  let cumulativeVolume := (candles.map (·.volume)).sum
  let vwap : ℚ :=
    if cumulativeVolume > 0 then cumulativeTPV / cumulativeVolume
    else ((candles.getLast?.getD ⟨0, 0, 0, 0, 0, 0⟩).close)
  let variance : ℚ :=
    ((typicalPrices.map (fun tp => (tp - vwap) ^ 2)).sum) / typicalPrices.length
  let stdDev : ℝ := Real.sqrt (variance : ℚ)
  { value := (vwap : ℚ)
    stdDev1Upper := (vwap : ℚ) + stdDev
    stdDev1Lower := (vwap : ℚ) - stdDev
    stdDev2Upper := (vwap : ℚ) + 2 * stdDev
    stdDev2Lower := (vwap : ℚ) - 2 * stdDev }

/-- technical-indicators.ts `calculateATR`: mean of the trailing `period`
true ranges, 0 when fewer than `period+1` candles exist. -/
def calculateATR (candles : List OHLCV) (period : Nat) : ℚ :=
  if candles.length < period + 1 then 0
  else
    let trueRanges :=
      List.zipWith
        (fun prev cur =>
          max (cur.high - cur.low)
            (max |cur.high - prev.close| |cur.low - prev.close|))
        candles candles.tail
    (takeLast trueRanges period).sum / period

/-- Keltner channels (EMA ± multiplier × ATR, all rational). -/
structure KeltnerChannels where
  upper : ℚ
  middle : ℚ
  lower : ℚ
deriving DecidableEq, Repr

/-- technical-indicators.ts `calculateKeltnerChannels`. -/
def calculateKeltnerChannels (candles : List OHLCV) (period : Nat)
    (multiplier : ℚ) : KeltnerChannels :=
  let middle := calculateEMA (candles.map (·.close)) period
  let atr := calculateATR candles period
  { upper := middle + multiplier * atr
    middle := middle
    lower := middle - multiplier * atr }

/-- Squeeze intensity classification. -/
inductive Intensity where
  | low
  | medium
  | high
deriving DecidableEq, Repr

/-- Squeeze flag: active when the Bollinger bands sit inside the Keltner
channels. -/
structure Squeeze where
  isActive : Prop
  intensity : Intensity

open Classical in
/-- technical-indicators.ts `detectSqueeze`. -/
noncomputable def detectSqueeze (bb : BollingerBands) (kc : KeltnerChannels) :
    Squeeze :=
  let bbWidth : ℝ := (bb.upper - bb.lower) / bb.middle
  { isActive := bb.upper < (kc.upper : ℚ) ∧ bb.lower > (kc.lower : ℚ)
    intensity :=
      if bbWidth < 0.015 then .high
      else if bbWidth < 0.025 then .medium
      else .low }

/-- Volume profile: point of control, value-area bounds, total volume. -/
structure VolumeProfile where
  poc : ℚ
  vah : ℚ
  valueAreaLow : ℚ
  totalVolume : ℚ
deriving DecidableEq, Repr

/-- Value-area expansion loop of technical-indicators.ts
`calculateVolumeProfile`: starting at the POC bucket, repeatedly pull in the
higher-volume neighbouring bucket until the target volume is reached (or no
bucket is left).  The JS `while` loop advances an index every iteration, so
a fuel of `2 × bucketCount` makes the recursion equivalent. -/
def expandValueArea (buckets : List ℚ) (bucketCount : Nat) (target : ℚ) :
    Nat → ℚ → Nat → Nat → Nat × Nat
  | 0, _, upperIndex, lowerIndex => (upperIndex, lowerIndex)
  | fuel + 1, acc, upperIndex, lowerIndex =>
    if acc < target then
      let upperVol := if upperIndex < bucketCount - 1 then buckets.getD (upperIndex + 1) 0 else 0
      let lowerVol := if lowerIndex > 0 then buckets.getD (lowerIndex - 1) 0 else 0
      if upperVol > lowerVol ∧ upperIndex < bucketCount - 1 then
        expandValueArea buckets bucketCount target fuel (acc + upperVol) (upperIndex + 1) lowerIndex
      else if lowerIndex > 0 then
        expandValueArea buckets bucketCount target fuel (acc + lowerVol) upperIndex (lowerIndex - 1)
      else (upperIndex, lowerIndex)
    else (upperIndex, lowerIndex)

/-- Bucket index of a candle in the volume profile: its `(H+L)/2`
representative price, floored into one of `bucketCount` equal buckets and
clamped to the last one. -/
def bucketIndexOf (minPrice bucketSize : ℚ) (bucketCount : Nat) (c : OHLCV) : Nat :=
  let avgPrice := (c.high + c.low) / 2
  min (((avgPrice - minPrice) / bucketSize).floor.toNat) (bucketCount - 1)

/-- technical-indicators.ts `calculateVolumeProfile`: 20 equal price buckets
over the last 50 candles; POC is the midpoint of the highest-volume bucket;
the value area expands outward from the POC to 70% of total volume. -/
def calculateVolumeProfile (candles : List OHLCV) : VolumeProfile :=
  let recentCandles := takeLast candles 50
  let prices := (recentCandles.map (fun c => [c.high, c.low, c.close])).flatten
  let minPrice := listMin prices
  let maxPrice := listMax prices
  let bucketCount : Nat := 20
  let bucketSize := (maxPrice - minPrice) / bucketCount
  let volumeBuckets :=
    (List.range bucketCount).map (fun i =>
      ((recentCandles.filter
          (fun c => bucketIndexOf minPrice bucketSize bucketCount c = i)).map
        (·.volume)).sum)
  let maxVolumeIndex :=
    (List.range bucketCount).foldl
      (fun best i => if volumeBuckets.getD i 0 > volumeBuckets.getD best 0 then i else best) 0
  let poc := minPrice + ((maxVolumeIndex : ℚ) + 1/2) * bucketSize
  let totalVolume := volumeBuckets.sum
  let targetVolume := totalVolume * (7/10)
  let indices :=
    expandValueArea volumeBuckets bucketCount targetVolume (2 * bucketCount)
      (volumeBuckets.getD maxVolumeIndex 0) maxVolumeIndex maxVolumeIndex
  { poc := poc
    vah := minPrice + ((indices.1 : ℚ) + 1) * bucketSize
    valueAreaLow := minPrice + (indices.2 : ℚ) * bucketSize
    totalVolume := totalVolume }

/-- Buy/sell imbalance classification. -/
inductive Imbalance where
  | strongBuy
  | buySide
  | neutral
  | sellSide
  | strongSell
deriving DecidableEq, Repr

/-- Market delta over the trailing 20 candles. -/
structure MarketDelta where
  delta : ℚ
  deltaPct : ℚ
  buyVolume : ℚ
  sellVolume : ℚ
  imbalance : Imbalance
deriving DecidableEq, Repr

/-- technical-indicators.ts `calculateMarketDelta`: green candles count as
buy volume, the rest as sell volume, over the trailing 20 candles. -/
def calculateMarketDelta (candles : List OHLCV) : MarketDelta :=
  let recent := takeLast candles 20
  let buyVolume := ((recent.filter (fun c => c.close > c.openPrice)).map (·.volume)).sum
  let sellVolume := ((recent.filter (fun c => ¬c.close > c.openPrice)).map (·.volume)).sum
  let totalVolume := buyVolume + sellVolume
  let delta := buyVolume - sellVolume
  let deltaPct := if totalVolume > 0 then delta / totalVolume * 100 else 0
  { delta := delta
    deltaPct := deltaPct
    buyVolume := buyVolume
    sellVolume := sellVolume
    imbalance :=
      if deltaPct > 30 then .strongBuy
      else if deltaPct > 10 then .buySide
      else if deltaPct > -10 then .neutral
      else if deltaPct > -30 then .sellSide
      else .strongSell }

/-- Full indicator snapshot (types/index.ts `TechnicalIndicators`). -/
structure TechnicalIndicators where
  rsi : ℚ
  macd : MACDResult
  bollingerBands : BollingerBands
  sma20 : ℚ
  sma50 : ℚ
  ema12 : ℚ
  ema26 : ℚ
  volumeAverage : ℚ
  volumeRatio : ℚ
  vwap : VWAPResult
  keltnerChannels : KeltnerChannels
  volumeProfile : VolumeProfile
  marketDelta : MarketDelta
  squeeze : Squeeze

/-- technical-indicators.ts `calculateIndicators`: fails below 50 candles,
otherwise computes the full snapshot from the candle window. -/
noncomputable def calculateIndicators (candles : List OHLCV) :
    Except String TechnicalIndicators :=
  if candles.length < 50 then
    .error "Not enough candles for indicator calculation (minimum 50 required)"
  else
    let closes := candles.map (·.close)
    let volumes := candles.map (·.volume)
    let bollingerBands := calculateBollingerBands closes 20 2
    let keltnerChannels := calculateKeltnerChannels candles 20 (3/2)
    let volumeAverage := calculateSMA volumes 20
    .ok
      { rsi := calculateRSI closes 14
        macd := calculateMACD closes
        bollingerBands := bollingerBands
        sma20 := calculateSMA closes 20
        sma50 := calculateSMA closes 50
        ema12 := calculateEMA closes 12
        ema26 := calculateEMA closes 26
        volumeAverage := volumeAverage
        volumeRatio := volumes.getLastD 0 / volumeAverage
        vwap := calculateVWAP candles
        keltnerChannels := keltnerChannels
        volumeProfile := calculateVolumeProfile candles
        marketDelta := calculateMarketDelta candles
        squeeze := detectSqueeze bollingerBands keltnerChannels }

end Indicators

/-- Open-half trade record (types/index.ts `Trade`). -/
structure Trade where
  id : String
  timestamp : Int
  pair : String
  action : Action
  quantity : ℚ
  price : ℚ
  value : ℚ
  fee : ℚ
  stopLoss : ℚ
  takeProfit : ℚ
  reasoning : String
deriving DecidableEq, Repr

/-- Closed trade record (types/index.ts `ClosedTrade`). -/
structure ClosedTrade where
  id : String
  timestamp : Int
  pair : String
  action : Action
  quantity : ℚ
  price : ℚ
  value : ℚ
  fee : ℚ
  stopLoss : ℚ
  takeProfit : ℚ
  reasoning : String
  exitTime : Int
  exitPrice : ℚ
  pnl : ℚ
  pnlPercentage : ℚ
  holdingPeriod : Int
  isWin : Bool
deriving DecidableEq, Repr

namespace PerformanceTracker

/-- Full state of the `PerformanceTracker`. -/
structure Tracker where
  stats : PerformanceStats
  closedTrades : List ClosedTrade
  initialCapital : ℚ
  peakEquity : ℚ

/-- performance-stats.ts constructor: zeroed statistics with the equity
curve seeded by one point `(Date.now(), initialCapital)`; `now` stands for
`Date.now()`. -/
def init (initialCapital : ℚ) (now : Int) : Tracker :=
  { stats :=
      { totalTrades := 0
        winningTrades := 0
        losingTrades := 0
        winRate := 0
        totalPnL := 0
        totalPnLPercentage := 0
        averageWin := 0
        averageLoss := 0
        largestWin := 0
        largestLoss := 0
        profitFactor := 0
        sharpeRatio := 0
        maxDrawdown := 0
        maxDrawdownPercentage := 0
        currentDrawdown := 0
        consecutiveWins := 0
        consecutiveLosses := 0
        maxConsecutiveWins := 0
        maxConsecutiveLosses := 0
        averageHoldingPeriod := 0
        averageRiskRewardRatio := 0
        expectancy := 0
        equityCurve := [⟨now, initialCapital⟩]
        startTime := now
        lastUpdateTime := now
        tradingDays := 0 }
    closedTrades := []
    initialCapital := initialCapital
    peakEquity := initialCapital }

open Classical in
/-- performance-stats.ts `calculateSharpeRatio`: 0 below two trades; else
the mean of the trade pnl percentages divided by their population standard
deviation, 0 when that standard deviation is 0.  No annualization factor is
applied (the `× √252` line in the source is commented out). -/
noncomputable def calculateSharpeRatio (closedTrades : List ClosedTrade) : ℝ :=
  if closedTrades.length < 2 then 0
  else
    let returns := closedTrades.map (·.pnlPercentage)
    let avgReturn : ℚ := returns.sum / returns.length
    let variance : ℚ := (returns.map (fun r => (r - avgReturn) ^ 2)).sum / returns.length
    let stdDev : ℝ := Real.sqrt (variance : ℚ)
    if stdDev = 0 then 0
    else ((avgReturn - 0 : ℚ) : ℝ) / stdDev

/-- performance-stats.ts `calculateAverageRiskReward`. -/
def calculateAverageRiskReward (averageWin averageLoss : ℚ) : ℚ :=
  if averageLoss = 0 then 0 else |averageWin / averageLoss|

/-- performance-stats.ts `recalculateStats`: recomputes every aggregate
metric from the closed-trade log and the already-updated counters. -/
noncomputable def recalculateStats (t : Tracker) : Tracker :=
  let s := t.stats
  let wins := t.closedTrades.filter (·.isWin)
  let losses := t.closedTrades.filter (fun tr => ¬tr.isWin)
  let averageWin := if wins.length > 0 then (wins.map (·.pnl)).sum / wins.length else 0
  let averageLoss := if losses.length > 0 then (losses.map (·.pnl)).sum / losses.length else 0
  let grossProfit := (wins.map (·.pnl)).sum
  let grossLoss := |(losses.map (·.pnl)).sum|
  let totalHoldingTime := (t.closedTrades.map (·.holdingPeriod)).sum
  { t with stats :=
    { s with
      winRate := if s.totalTrades > 0 then (s.winningTrades : ℚ) / s.totalTrades * 100 else 0
      totalPnLPercentage := s.totalPnL / t.initialCapital * 100
      averageWin := averageWin
      averageLoss := averageLoss
      largestWin := if wins.length > 0 then listMax (wins.map (·.pnl)) else 0
      largestLoss := if losses.length > 0 then listMin (losses.map (·.pnl)) else 0
      profitFactor := if grossLoss > 0 then grossProfit / grossLoss else 0
      sharpeRatio := calculateSharpeRatio t.closedTrades
      averageHoldingPeriod :=
        if t.closedTrades.length > 0 then (totalHoldingTime : ℚ) / t.closedTrades.length else 0
      averageRiskRewardRatio := calculateAverageRiskReward averageWin averageLoss
      expectancy := if s.totalTrades > 0 then s.totalPnL / s.totalTrades else 0
      tradingDays := ((s.lastUpdateTime - s.startTime : Int) : ℚ) / (1000 * 60 * 60 * 24) } }

/-- performance-stats.ts `addTrade`: appends the trade, updates win/loss
streaks, total pnl, the equity curve, peak/drawdown bookkeeping, then runs
the full recomputation. -/
noncomputable def addTrade (trade : ClosedTrade) (currentEquity : ℚ) (t : Tracker) :
    Tracker :=
  let closedTrades := t.closedTrades ++ [trade]
  let s := t.stats
  let s := { s with totalTrades := s.totalTrades + 1 }
  let s :=
    if trade.isWin then
      let cw := s.consecutiveWins + 1
      { s with
        winningTrades := s.winningTrades + 1
        consecutiveWins := cw
        consecutiveLosses := 0
        maxConsecutiveWins := if cw > s.maxConsecutiveWins then cw else s.maxConsecutiveWins }
    else
      let cl := s.consecutiveLosses + 1
      { s with
        losingTrades := s.losingTrades + 1
        consecutiveLosses := cl
        consecutiveWins := 0
        maxConsecutiveLosses := if cl > s.maxConsecutiveLosses then cl else s.maxConsecutiveLosses }
  let s := { s with totalPnL := s.totalPnL + trade.pnl }
  let s := { s with equityCurve :=
    s.equityCurve ++ [({ timestamp := trade.exitTime, equity := currentEquity } : EquityPoint)] }
  let peakEquity := if currentEquity > t.peakEquity then currentEquity else t.peakEquity
  let drawdown := peakEquity - currentEquity
  let s := { s with currentDrawdown := drawdown / peakEquity * 100 }
  let s :=
    if drawdown > s.maxDrawdown then
      { s with maxDrawdown := drawdown, maxDrawdownPercentage := drawdown / peakEquity * 100 }
    else s
  let s := { s with lastUpdateTime := trade.exitTime }
  recalculateStats { t with stats := s, closedTrades := closedTrades, peakEquity := peakEquity }

/-- performance-stats.ts `updateEquityCurve`: appends an equity point (e.g.
on HOLD) and updates peak/drawdown bookkeeping; no full recomputation. -/
def updateEquityCurve (timestamp : Int) (equity : ℚ) (t : Tracker) : Tracker :=
  let s := t.stats
  let s := { s with equityCurve :=
    s.equityCurve ++ [({ timestamp := timestamp, equity := equity } : EquityPoint)] }
  let peakEquity := if equity > t.peakEquity then equity else t.peakEquity
  let drawdown := peakEquity - equity
  let s := { s with currentDrawdown := drawdown / peakEquity * 100 }
  let s :=
    if drawdown > s.maxDrawdown then
      { s with maxDrawdown := drawdown, maxDrawdownPercentage := drawdown / peakEquity * 100 }
    else s
  let s := { s with lastUpdateTime := timestamp }
  { t with stats := s, peakEquity := peakEquity }

end PerformanceTracker

/-- Trading configuration slice used by the execution engines. -/
structure TradingConfig where
  pair : String
  timeframe : String
  initialCapital : ℚ
  makerFee : ℚ
  takerFee : ℚ
  slippage : ℚ
  riskParameters : RiskParameters
deriving DecidableEq, Repr

/-- Base symbol of a pair (JS `pair.split('/')[0]`). -/
def baseSymbol (pair : String) : String := (pair.splitOn "/").headD pair

/-- `Map.set`: replace a present key's value, otherwise append. -/
def setHolding (h : List (String × ℚ)) (k : String) (v : ℚ) : List (String × ℚ) :=
  if h.any (fun p => p.1 = k) then h.map (fun p => if p.1 = k then (k, v) else p)
  else h ++ [(k, v)]

/-- `Map.delete`. -/
def delHolding (h : List (String × ℚ)) (k : String) : List (String × ℚ) :=
  h.filter (fun p => p.1 ≠ k)

namespace BacktestEngine

/-- backtest-engine.ts `openPosition`: entry at `close × (1 + slippage)`,
risk-sized quantity, taker fee on the entry value, cash debited by
`value + fee`; returns the updated portfolio, the new position and the
open-half trade record.  `now` stands for `Date.now()` used in the id. -/
def openPosition (cfg : TradingConfig) (decision : AIDecision) (candle : OHLCV)
    (portfolio : Portfolio) (now : Int) : Portfolio × Position × Trade :=
  let entryPrice := candle.close * (1 + cfg.slippage)
  let quantity :=
    RiskManager.calculatePositionSize cfg.riskParameters decision portfolio entryPrice
  let value := quantity * entryPrice
  let fee := value * cfg.takerFee
  let stopLoss := RiskManager.calculateStopLoss cfg.riskParameters entryPrice .long decision.stopLoss
  let takeProfit := RiskManager.calculateTakeProfit cfg.riskParameters entryPrice .long decision.takeProfit
  let position : Position :=
    { symbol := cfg.pair
      entryPrice := entryPrice
      quantity := quantity
      side := .long
      entryTime := candle.timestamp
      stopLoss := stopLoss
      takeProfit := takeProfit
      currentPrice := entryPrice
      unrealizedPnL := 0 }
  let portfolio :=
    { portfolio with
      cash := portfolio.cash - (value + fee)
      holdings := setHolding portfolio.holdings (baseSymbol cfg.pair) quantity }
  let trade : Trade :=
    { id := "trade_" ++ toString now
      timestamp := candle.timestamp
      pair := cfg.pair
      action := .buy
      quantity := quantity
      price := entryPrice
      value := value
      fee := fee
      stopLoss := stopLoss
      takeProfit := takeProfit
      reasoning := decision.reasoning }
  (portfolio, position, trade)

/-- backtest-engine.ts `closePosition`: exit at `close × (1 − slippage)`,
taker fee on the exit value, realized `pnl = exitValue − entryValue − exitFee`
(the entry fee is not part of the recorded pnl), cash credited by
`value − fee`; returns the updated portfolio and the closed trade record. -/
def closePosition (cfg : TradingConfig) (candle : OHLCV) (reason : String)
    (pos : Position) (portfolio : Portfolio) (now : Int) : Portfolio × ClosedTrade :=
  let exitPrice := candle.close * (1 - cfg.slippage)
  let value := pos.quantity * exitPrice
  let fee := value * cfg.takerFee
  let entryValue := pos.quantity * pos.entryPrice
  let pnl := value - entryValue - fee
  let pnlPercentage := pnl / entryValue * 100
  let portfolio :=
    { portfolio with
      cash := portfolio.cash + (value - fee)
      holdings := delHolding portfolio.holdings (baseSymbol cfg.pair) }
  let closedTrade : ClosedTrade :=
    { id := "trade_" ++ toString now
      timestamp := pos.entryTime
      pair := cfg.pair
      action := .sell
      quantity := pos.quantity
      price := pos.entryPrice
      value := entryValue
      fee := fee
      stopLoss := pos.stopLoss
      takeProfit := pos.takeProfit
      reasoning := reason
      exitTime := candle.timestamp
      exitPrice := exitPrice
      pnl := pnl
      pnlPercentage := pnlPercentage
      holdingPeriod := candle.timestamp - pos.entryTime
      isWin := decide (pnl > 0) }
  (portfolio, closedTrade)

end BacktestEngine

namespace PaperTradingEngine

/-- paper-trading-engine.ts `fetchAndProcessLatestCandle`, candle-history
part: with no fetched candle, or a latest fetched candle whose timestamp is
not strictly newer than the last processed one, nothing happens; otherwise
the candle is appended to the rolling history (capped at the last 500) and
handed to the per-candle pipeline.  Returns the new history and the candle
that was processed, if any. -/
def pollStep (candleHistory : List OHLCV) (latestCandles : List OHLCV) :
    List OHLCV × Option OHLCV :=
  match latestCandles.getLast? with
  | none => (candleHistory, none)
  | some latestCandle =>
    let isStale : Bool :=
      match candleHistory.getLast? with
      | some lastProcessed => decide (latestCandle.timestamp ≤ lastProcessed.timestamp)
      | none => false
    if isStale then (candleHistory, none)
    else
      let h := candleHistory ++ [latestCandle]
      let h := if h.length > 500 then takeLast h 500 else h
      (h, some latestCandle)

end PaperTradingEngine

/-! ### Concrete fixtures shared by witnesses and counterexamples -/

/-- Shared concrete fixture: default risk parameters (the config-loader
defaults: 2% risk per trade, 2% stop, 3% take profit, 25% max position,
3 max consecutive losses). -/
def defaultRiskParams : RiskParameters :=
  { maxRiskPerTrade := 1/50
    maxDrawdown := 3/20
    dailyLossLimit := 1/20
    maxConsecutiveLosses := 3
    minSharpeRatio := 2
    stopLossPercentage := 1/50
    takeProfitPercentage := 3/100
    maxPositionSize := 1/4
    circuitBreakerRecoveryMinutes := 0 }

/-- Shared concrete fixture: a fresh portfolio of 10000. -/
def samplePortfolio : Portfolio := ⟨10000, [], 10000, 0⟩

/-- Shared concrete fixture: a plain BUY decision. -/
def sampleBuy : AIDecision := ⟨.buy, 1, none, none, none, "buy"⟩

/-- Shared concrete fixture: zero-slippage config with 1% taker fee. -/
def sampleConfig : TradingConfig :=
  { pair := "BTC/USD"
    timeframe := "5m"
    initialCapital := 10000
    makerFee := 16/10000
    takerFee := 1/100
    slippage := 0
    riskParameters := defaultRiskParams }

/-- Shared concrete fixture: a flat candle at price 100. -/
def sampleCandle : OHLCV := ⟨1000, 100, 100, 100, 100, 1⟩

/-! ### C3: position-size cap -/

/-- C3: for every decision, portfolio with nonnegative equity and positive
price, the quantity from `calculatePositionSize` is at most
`maxPositionSize × totalEquity / price`, regardless of the AI-suggested
fraction and of the stop-loss distance. -/
theorem positionSize_le_cap (params : RiskParameters) (decision : AIDecision)
    (portfolio : Portfolio) (price : ℚ) (hEq : 0 ≤ portfolio.totalEquity)
    (hP : 0 < price) :
    RiskManager.calculatePositionSize params decision portfolio price ≤
      params.maxPositionSize * portfolio.totalEquity / price := by
  unfold RiskManager.calculatePositionSize
  have hcap : portfolio.totalEquity * params.maxPositionSize / price =
      params.maxPositionSize * portfolio.totalEquity / price := by ring
  cases hq : decision.quantity with
  | none => exact le_of_le_of_eq (min_le_right _ _) hcap
  | some q =>
      dsimp only
      split
      · exact le_trans (min_le_left _ _) (le_of_le_of_eq (min_le_right _ _) hcap)
      · exact le_of_le_of_eq (min_le_right _ _) hcap

/-- C3 witness: the cap theorem applied at a concrete portfolio and price. -/
theorem positionSize_le_cap_witness :
    RiskManager.calculatePositionSize defaultRiskParams sampleBuy samplePortfolio 100 ≤
      defaultRiskParams.maxPositionSize * samplePortfolio.totalEquity / 100 :=
  positionSize_le_cap defaultRiskParams sampleBuy samplePortfolio 100
    (by norm_num [samplePortfolio]) (by norm_num)

/-! ### C6: stop-loss / take-profit levels -/

/-- C6 amended: acceptance of a present, nonzero suggested level is decided
purely by the relative-distance band ([0.5, 2]× the configured stop
percentage, [0.5, 3]× the configured take-profit percentage); out-of-band or
absent suggestions fall back to the configured percentage from entry, and it
is the fallback level that carries the side-dependent sign (an accepted
suggestion may lie on either side of entry, see the counterexample). -/
theorem stopTake_levels_spec (params : RiskParameters) (entry : ℚ)
    (hE : 0 < entry) (hsl : 0 < params.stopLossPercentage)
    (htp : 0 < params.takeProfitPercentage) :
    (∀ side s, s ≠ 0 →
       params.stopLossPercentage * (1/2) ≤ |entry - s| / entry →
       |entry - s| / entry ≤ params.stopLossPercentage * 2 →
       RiskManager.calculateStopLoss params entry side (some s) = s) ∧
    (∀ side s, s ≠ 0 →
       ¬(params.stopLossPercentage * (1/2) ≤ |entry - s| / entry ∧
         |entry - s| / entry ≤ params.stopLossPercentage * 2) →
       RiskManager.calculateStopLoss params entry side (some s) =
         RiskManager.calculateStopLoss params entry side none) ∧
    (RiskManager.calculateStopLoss params entry .long none < entry ∧
     entry < RiskManager.calculateStopLoss params entry .short none) ∧
    (∀ side s, s ≠ 0 →
       params.takeProfitPercentage * (1/2) ≤ |s - entry| / entry →
       |s - entry| / entry ≤ params.takeProfitPercentage * 3 →
       RiskManager.calculateTakeProfit params entry side (some s) = s) ∧
    (∀ side s, s ≠ 0 →
       ¬(params.takeProfitPercentage * (1/2) ≤ |s - entry| / entry ∧
         |s - entry| / entry ≤ params.takeProfitPercentage * 3) →
       RiskManager.calculateTakeProfit params entry side (some s) =
         RiskManager.calculateTakeProfit params entry side none) ∧
    (entry < RiskManager.calculateTakeProfit params entry .long none ∧
     RiskManager.calculateTakeProfit params entry .short none < entry) := by
  refine ⟨?_, ?_, ⟨?_, ?_⟩, ?_, ?_, ⟨?_, ?_⟩⟩
  · intro side s hs h1 h2
    simp only [RiskManager.calculateStopLoss]
    rw [if_pos hs, if_pos ⟨h1, h2⟩]
  · intro side s hs hno
    simp only [RiskManager.calculateStopLoss]
    rw [if_pos hs, if_neg hno]
  · simp only [RiskManager.calculateStopLoss]
    nlinarith [mul_pos hE hsl]
  · simp only [RiskManager.calculateStopLoss]
    nlinarith [mul_pos hE hsl]
  · intro side s hs h1 h2
    simp only [RiskManager.calculateTakeProfit]
    rw [if_pos hs, if_pos ⟨h1, h2⟩]
  · intro side s hs hno
    simp only [RiskManager.calculateTakeProfit]
    rw [if_pos hs, if_neg hno]
  · simp only [RiskManager.calculateTakeProfit]
    nlinarith [mul_pos hE htp]
  · simp only [RiskManager.calculateTakeProfit]
    nlinarith [mul_pos hE htp]

/-- C6 counterexample: with a 2% configured stop, a suggested stop of 102 at
entry 100 is in band and returned unchanged for a long position, yet lies
above the entry price — refuting the claim that the returned stop-loss for a
long is always below entry. -/
theorem stopLoss_long_above_entry :
    RiskManager.calculateStopLoss defaultRiskParams 100 .long (some 102) = 102 ∧
    ¬((102 : ℚ) < 100) := by
  constructor
  · norm_num [RiskManager.calculateStopLoss, defaultRiskParams]
  · norm_num

/-- C6 witness: an in-band suggestion (99 at entry 100, 1% distance) is
accepted and the fallback stop for a long sits below entry. -/
theorem stopTake_levels_witness :
    RiskManager.calculateStopLoss defaultRiskParams 100 .long (some 99) = 99 ∧
    RiskManager.calculateStopLoss defaultRiskParams 100 .long none < 100 := by
  have h := stopTake_levels_spec defaultRiskParams 100 (by norm_num)
    (by norm_num [defaultRiskParams]) (by norm_num [defaultRiskParams])
  refine ⟨h.1 .long 99 (by norm_num) ?_ ?_, h.2.2.1.1⟩
  · norm_num [defaultRiskParams]
  · norm_num [defaultRiskParams]

/-! ### C1: zero-movement round trip -/

/-- C1 amended: a zero-slippage round trip at an unchanged close price
realizes pnl = −exitFee (the entry fee is debited from cash but is not part
of the recorded pnl), strictly negative whenever the position quantity, the
price and the taker fee are positive. -/
theorem roundTrip_pnl_eq_neg_exitFee (cfg : TradingConfig) (decision : AIDecision)
    (c1 c2 : OHLCV) (pf : Portfolio) (reason : String) (n1 n2 : Int)
    (hslip : cfg.slippage = 0) (hclose : c2.close = c1.close)
    (hq : 0 < ((BacktestEngine.openPosition cfg decision c1 pf n1).2.1).quantity)
    (hfee : 0 < cfg.takerFee) (hp : 0 < c1.close) :
    ((BacktestEngine.closePosition cfg c2 reason
        (BacktestEngine.openPosition cfg decision c1 pf n1).2.1
        (BacktestEngine.openPosition cfg decision c1 pf n1).1 n2).2).pnl =
      -((BacktestEngine.closePosition cfg c2 reason
          (BacktestEngine.openPosition cfg decision c1 pf n1).2.1
          (BacktestEngine.openPosition cfg decision c1 pf n1).1 n2).2).fee ∧
    ((BacktestEngine.closePosition cfg c2 reason
        (BacktestEngine.openPosition cfg decision c1 pf n1).2.1
        (BacktestEngine.openPosition cfg decision c1 pf n1).1 n2).2).pnl < 0 := by
  set q := ((BacktestEngine.openPosition cfg decision c1 pf n1).2.1).quantity with hqdef
  have hentry : ((BacktestEngine.openPosition cfg decision c1 pf n1).2.1).entryPrice =
      c1.close * (1 + cfg.slippage) := rfl
  constructor
  · simp only [BacktestEngine.closePosition, hentry, hslip, hclose]
    ring
  · simp only [BacktestEngine.closePosition, hentry, hslip, hclose]
    have hfeepos : 0 < q * (c1.close * (1 - 0)) * cfg.takerFee := by
      apply mul_pos (mul_pos hq (by simpa using hp)) hfee
    nlinarith [hfeepos]

/-- C1 counterexample: at the concrete zero-slippage round trip (quantity
25 at price 100, 1% taker fee) the recorded pnl is −25 — the exit fee alone
— and not −(entryFee + exitFee) = −50 as the claim states. -/
theorem roundTrip_pnl_not_sum_of_fees :
    ((BacktestEngine.closePosition sampleConfig sampleCandle "close"
        (BacktestEngine.openPosition sampleConfig sampleBuy sampleCandle samplePortfolio 0).2.1
        (BacktestEngine.openPosition sampleConfig sampleBuy sampleCandle samplePortfolio 0).1 0).2).pnl = -25 ∧
    ((BacktestEngine.openPosition sampleConfig sampleBuy sampleCandle samplePortfolio 0).2.2).fee +
      ((BacktestEngine.closePosition sampleConfig sampleCandle "close"
        (BacktestEngine.openPosition sampleConfig sampleBuy sampleCandle samplePortfolio 0).2.1
        (BacktestEngine.openPosition sampleConfig sampleBuy sampleCandle samplePortfolio 0).1 0).2).fee = 50 ∧
    ¬(((BacktestEngine.closePosition sampleConfig sampleCandle "close"
        (BacktestEngine.openPosition sampleConfig sampleBuy sampleCandle samplePortfolio 0).2.1
        (BacktestEngine.openPosition sampleConfig sampleBuy sampleCandle samplePortfolio 0).1 0).2).pnl =
      -(((BacktestEngine.openPosition sampleConfig sampleBuy sampleCandle samplePortfolio 0).2.2).fee +
        ((BacktestEngine.closePosition sampleConfig sampleCandle "close"
          (BacktestEngine.openPosition sampleConfig sampleBuy sampleCandle samplePortfolio 0).2.1
          (BacktestEngine.openPosition sampleConfig sampleBuy sampleCandle samplePortfolio 0).1 0).2).fee)) := by
  norm_num [BacktestEngine.openPosition, BacktestEngine.closePosition,
    RiskManager.calculatePositionSize, RiskManager.calculateStopLoss,
    RiskManager.calculateTakeProfit, sampleConfig, sampleBuy, sampleCandle,
    samplePortfolio, defaultRiskParams]

/-- C1 witness: the amended round-trip theorem at the concrete fixture. -/
theorem roundTrip_pnl_witness :
    ((BacktestEngine.closePosition sampleConfig sampleCandle "close"
        (BacktestEngine.openPosition sampleConfig sampleBuy sampleCandle samplePortfolio 0).2.1
        (BacktestEngine.openPosition sampleConfig sampleBuy sampleCandle samplePortfolio 0).1 0).2).pnl =
      -((BacktestEngine.closePosition sampleConfig sampleCandle "close"
          (BacktestEngine.openPosition sampleConfig sampleBuy sampleCandle samplePortfolio 0).2.1
          (BacktestEngine.openPosition sampleConfig sampleBuy sampleCandle samplePortfolio 0).1 0).2).fee ∧
    ((BacktestEngine.closePosition sampleConfig sampleCandle "close"
        (BacktestEngine.openPosition sampleConfig sampleBuy sampleCandle samplePortfolio 0).2.1
        (BacktestEngine.openPosition sampleConfig sampleBuy sampleCandle samplePortfolio 0).1 0).2).pnl < 0 :=
  roundTrip_pnl_eq_neg_exitFee sampleConfig sampleBuy sampleCandle sampleCandle
    samplePortfolio "close" 0 0 rfl rfl
    (by norm_num [BacktestEngine.openPosition, RiskManager.calculatePositionSize,
      sampleConfig, sampleBuy, sampleCandle, samplePortfolio, defaultRiskParams])
    (by norm_num [sampleConfig]) (by norm_num [sampleCandle])

/-! ### C8: paper-trading poll idempotence -/

/-- Helper: a successfully processed poll leaves the processed candle as the
last element of the new history (the 500-cap keeps the tail). -/
theorem pollStep_getLast (history fetched : List OHLCV) (h' : List OHLCV) (c : OHLCV)
    (hp : PaperTradingEngine.pollStep history fetched = (h', some c)) :
    h'.getLast? = some c := by
  unfold PaperTradingEngine.pollStep at hp
  cases hfl : fetched.getLast? with
  | none => rw [hfl] at hp; simp at hp
  | some latest =>
      rw [hfl] at hp
      dsimp only at hp
      split at hp
      · simp at hp
      · rw [Prod.mk.injEq] at hp
        obtain ⟨hh, hc⟩ := hp
        obtain rfl : latest = c := Option.some.inj hc
        subst hh
        split
        · rename_i hlen
          rw [takeLast, List.getLast?_drop, if_neg]
          · exact List.getLast?_concat _
          · omega
        · exact List.getLast?_concat _

/-- C8: the paper-trading poll step skips a latest candle that is not
strictly newer than the last processed one (no append, no pipeline run), and
a candle is therefore processed at most once: after a successful poll, any
further poll whose latest candle has the same (or an older) timestamp leaves
the history unchanged and processes nothing. -/
theorem pollStep_idempotent :
    (∀ history fetched latest lastp,
       fetched.getLast? = some latest → history.getLast? = some lastp →
       latest.timestamp ≤ lastp.timestamp →
       PaperTradingEngine.pollStep history fetched = (history, none)) ∧
    (∀ history fetched h' c fetched2 c2,
       PaperTradingEngine.pollStep history fetched = (h', some c) →
       fetched2.getLast? = some c2 → c2.timestamp ≤ c.timestamp →
       PaperTradingEngine.pollStep h' fetched2 = (h', none)) := by
  have skip : ∀ history fetched (latest lastp : OHLCV),
      fetched.getLast? = some latest → history.getLast? = some lastp →
      latest.timestamp ≤ lastp.timestamp →
      PaperTradingEngine.pollStep history fetched = (history, none) := by
    intro history fetched latest lastp hl hh hts
    unfold PaperTradingEngine.pollStep
    rw [hl]
    dsimp only
    rw [hh]
    simp [hts]
  refine ⟨skip, ?_⟩
  intro history fetched h' c fetched2 c2 hp hf2 hts
  exact skip h' fetched2 c2 c hf2 (pollStep_getLast history fetched h' c hp) hts

/-- C8 witness: feeding the same latest candle twice processes it once. -/
theorem pollStep_idempotent_witness :
    PaperTradingEngine.pollStep
      (PaperTradingEngine.pollStep [] [sampleCandle]).1 [sampleCandle] =
      ((PaperTradingEngine.pollStep [] [sampleCandle]).1, none) := by
  have hfirst : PaperTradingEngine.pollStep [] [sampleCandle] = ([sampleCandle], some sampleCandle) := by
    simp [PaperTradingEngine.pollStep, takeLast]
  refine pollStep_idempotent.2 [] [sampleCandle] _ sampleCandle [sampleCandle] sampleCandle ?_ ?_ le_rfl
  · rw [hfirst]
  · rfl

/-! ### C5: RSI bounds -/

/-- Helper: the RSI loss accumulator vanishes exactly when no change in the
list is a decrease. -/
theorem lossSum_eq_zero_iff (cs : List ℚ) :
    ((cs.map (fun c => if c > 0 then 0 else |c|)).sum = 0) ↔ ∀ c ∈ cs, 0 ≤ c := by
  induction cs with
  | nil => simp
  | cons c cs ih =>
      simp only [List.map_cons, List.sum_cons, List.mem_cons]
      have ht : (0 : ℚ) ≤ if c > 0 then 0 else |c| := by
        split
        · exact le_refl 0
        · exact abs_nonneg c
      have hrest : (0 : ℚ) ≤ (cs.map (fun c => if c > 0 then 0 else |c|)).sum :=
        List.sum_nonneg (by
          intro x hx
          obtain ⟨c', _, rfl⟩ := List.mem_map.mp hx
          split
          · exact le_refl 0
          · exact abs_nonneg c')
      rw [add_eq_zero_iff_of_nonneg ht hrest, ih]
      constructor
      · rintro ⟨h1, h2⟩ x hx
        rcases hx with rfl | hx
        · by_cases hc : x > 0
          · exact le_of_lt hc
          · rw [if_neg hc, abs_eq_zero] at h1
            exact le_of_eq h1.symm
        · exact h2 x hx
      · intro h
        refine ⟨?_, fun x hx => h x (Or.inr hx)⟩
        by_cases hc : c > 0
        · rw [if_pos hc]
        · rw [if_neg hc, abs_eq_zero]
          have := h c (Or.inl rfl)
          linarith [not_lt.mp hc]

/-- C5 amended: RSI(14) always lies in [0, 100], and equals 100 exactly when
at least 15 prices are supplied and none of the trailing 14 close-to-close
changes is a decrease (an earlier decrease in the window does not prevent
RSI = 100, see the counterexample). -/
theorem rsi_bounds_and_top (prices : List ℚ) :
    0 ≤ Indicators.calculateRSI prices 14 ∧ Indicators.calculateRSI prices 14 ≤ 100 ∧
    (Indicators.calculateRSI prices 14 = 100 ↔
      15 ≤ prices.length ∧ ∀ c ∈ takeLast (Indicators.changesOf prices) 14, 0 ≤ c) := by
  unfold Indicators.calculateRSI
  split
  · rename_i hlen
    refine ⟨by norm_num, by norm_num, ?_⟩
    constructor
    · intro h; norm_num at h
    · rintro ⟨h15, -⟩; omega
  · rename_i hlen
    dsimp only
    set recent := takeLast (Indicators.changesOf prices) 14 with hrec
    set G := (recent.map (fun c => if c > 0 then c else 0)).sum with hG
    set L := (recent.map (fun c => if c > 0 then 0 else |c|)).sum with hL
    have hG0 : 0 ≤ G := by
      rw [hG]
      refine List.sum_nonneg ?_
      intro x hx
      obtain ⟨c', _, rfl⟩ := List.mem_map.mp hx
      split
      · rename_i hc; exact le_of_lt hc
      · exact le_refl 0
    have hL0 : 0 ≤ L := by
      rw [hL]
      refine List.sum_nonneg ?_
      intro x hx
      obtain ⟨c', _, rfl⟩ := List.mem_map.mp hx
      split
      · exact le_refl 0
      · exact abs_nonneg c'
    split
    · rename_i hz
      have hLz : L = 0 := by
        rcases div_eq_zero_iff.mp hz with h | h
        · exact h
        · norm_num at h
      refine ⟨by norm_num, le_refl _, ?_⟩
      constructor
      · intro _
        exact ⟨by omega, (lossSum_eq_zero_iff recent).mp hLz⟩
      · intro _; rfl
    · rename_i hz
      have hne : L ≠ 0 := by
        intro h
        exact hz (by rw [h]; norm_num)
      have hLpos : 0 < L := lt_of_le_of_ne hL0 (Ne.symm hne)
      have hrs : 0 ≤ G / (14 : ℚ) / (L / (14 : ℚ)) :=
        div_nonneg (div_nonneg hG0 (by norm_num)) (div_nonneg hL0 (by norm_num))
      have h1rs : (0 : ℚ) < 1 + G / (14 : ℚ) / (L / (14 : ℚ)) := by linarith
      have hdivpos : (0 : ℚ) < 100 / (1 + G / (14 : ℚ) / (L / (14 : ℚ))) :=
        div_pos (by norm_num) h1rs
      have hdivle : 100 / (1 + G / (14 : ℚ) / (L / (14 : ℚ))) ≤ 100 :=
        div_le_self (by norm_num) (by linarith)
      push_cast
      refine ⟨by linarith, by linarith, ?_⟩
      constructor
      · intro h
        exfalso
        have : 100 / (1 + G / (14 : ℚ) / (L / (14 : ℚ))) = 0 := by linarith
        linarith
      · rintro ⟨-, hall⟩
        exfalso
        have : L = 0 := by
          rw [hL]
          exact (lossSum_eq_zero_iff recent).mpr hall
        linarith

/-- C5 counterexample: a 16-price window whose first change is a decrease
but whose trailing 14 changes are all gains has RSI = 100 even though the
window contains a losing period — refuting the claimed "iff over the whole
window". -/
theorem rsi_100_despite_loss_in_window :
    Indicators.calculateRSI [2, 1, 2, 3, 4, 5, 6, 7, 8, 9, 10, 11, 12, 13, 14, 15] 14 = 100 ∧
    ¬(∀ c ∈ Indicators.changesOf [2, 1, 2, 3, 4, 5, 6, 7, 8, 9, 10, 11, 12, 13, 14, 15], (0 : ℚ) ≤ c) := by
  constructor
  · norm_num [Indicators.calculateRSI, Indicators.changesOf, takeLast]
  · intro h
    have := h (-1) (by norm_num [Indicators.changesOf])
    linarith

/-- C5 witness: the bounds theorem applied at concrete windows. -/
theorem rsi_bounds_witness :
    Indicators.calculateRSI [1, 2] 14 ≤ 100 ∧
    (Indicators.calculateRSI [2, 1, 2, 3, 4, 5, 6, 7, 8, 9, 10, 11, 12, 13, 14, 15] 14 = 100 ↔
      15 ≤ ([2, 1, 2, 3, 4, 5, 6, 7, 8, 9, 10, 11, 12, 13, 14, 15] : List ℚ).length ∧
      ∀ c ∈ takeLast (Indicators.changesOf [2, 1, 2, 3, 4, 5, 6, 7, 8, 9, 10, 11, 12, 13, 14, 15]) 14, (0 : ℚ) ≤ c) :=
  ⟨(rsi_bounds_and_top [1, 2]).2.1,
   (rsi_bounds_and_top [2, 1, 2, 3, 4, 5, 6, 7, 8, 9, 10, 11, 12, 13, 14, 15]).2.2⟩

/-! ### C4: equity-curve append-only behaviour -/

/-- The two public tracker mutations, as one operation type. -/
inductive TrackerOp where
  | addTrade (trade : ClosedTrade) (currentEquity : ℚ)
  | tick (timestamp : Int) (equity : ℚ)

/-- Apply one tracker operation. -/
noncomputable def applyOp (t : PerformanceTracker.Tracker) : TrackerOp →
    PerformanceTracker.Tracker
  | .addTrade tr eq => PerformanceTracker.addTrade tr eq t
  | .tick ts eq => PerformanceTracker.updateEquityCurve ts eq t

/-- The equity point each operation appends. -/
def opPoint : TrackerOp → EquityPoint
  | .addTrade tr eq => ⟨tr.exitTime, eq⟩
  | .tick ts eq => ⟨ts, eq⟩

/-- Helper: every operation appends exactly one point to the equity curve
and never removes or mutates existing points. -/
theorem applyOp_equityCurve (t : PerformanceTracker.Tracker) (op : TrackerOp) :
    (applyOp t op).stats.equityCurve = t.stats.equityCurve ++ [opPoint op] := by
  cases op with
  | addTrade tr eq =>
      simp only [applyOp, PerformanceTracker.addTrade, PerformanceTracker.recalculateStats,
        opPoint, apply_ite PerformanceStats.equityCurve]
      simp
  | tick ts eq =>
      simp only [applyOp, PerformanceTracker.updateEquityCurve, opPoint,
        apply_ite PerformanceStats.equityCurve]
      simp

/-- C4 amended: the equity curve is append-only — it starts as the single
seeded point `(now, initialCapital)` and after any sequence of operations it
is exactly that seed followed by one appended point per operation; the
timestamps are monotonic provided the appended timestamps are fed in
non-decreasing order starting from the seed time (the tracker itself never
enforces this, see the counterexample). -/
theorem equityCurve_append_only (c : ℚ) (now : Int) (ops : List TrackerOp) :
    (PerformanceTracker.init c now).stats.equityCurve = [⟨now, c⟩] ∧
    (∀ t op, (applyOp t op).stats.equityCurve = t.stats.equityCurve ++ [opPoint op]) ∧
    ((ops.foldl applyOp (PerformanceTracker.init c now)).stats.equityCurve =
      ⟨now, c⟩ :: ops.map opPoint) ∧
    (List.Chain' (· ≤ ·) (now :: ops.map (fun op => (opPoint op).timestamp)) →
      List.Chain' (· ≤ ·)
        (((ops.foldl applyOp (PerformanceTracker.init c now)).stats.equityCurve).map
          (·.timestamp))) := by
  have hfold : ∀ (ops : List TrackerOp) (t : PerformanceTracker.Tracker),
      (ops.foldl applyOp t).stats.equityCurve =
        t.stats.equityCurve ++ ops.map opPoint := by
    intro ops
    induction ops with
    | nil => intro t; simp
    | cons op ops ih =>
        intro t
        simp only [List.foldl_cons, List.map_cons]
        rw [ih, applyOp_equityCurve]
        simp
  have hcurve : (ops.foldl applyOp (PerformanceTracker.init c now)).stats.equityCurve =
      ⟨now, c⟩ :: ops.map opPoint := by
    rw [hfold]
    rfl
  refine ⟨rfl, applyOp_equityCurve, hcurve, ?_⟩
  intro hmono
  rw [hcurve]
  simpa using hmono

/-- C4 counterexample: the tracker happily appends a point with an earlier
timestamp than the seed — the equity-curve timestamps are not monotonic in
general (in a backtest the seed is wall-clock time while all later points
carry historical candle timestamps). -/
theorem equityCurve_not_monotonic :
    ((PerformanceTracker.updateEquityCurve 5 100
        (PerformanceTracker.init 100 10)).stats.equityCurve.map (·.timestamp)) = [10, 5] ∧
    ¬ List.Chain' (· ≤ ·)
      ((PerformanceTracker.updateEquityCurve 5 100
        (PerformanceTracker.init 100 10)).stats.equityCurve.map (·.timestamp)) := by
  have hc : ((PerformanceTracker.updateEquityCurve 5 100
      (PerformanceTracker.init 100 10)).stats.equityCurve.map (·.timestamp)) = [10, 5] := by
    simp [PerformanceTracker.updateEquityCurve, PerformanceTracker.init]
  refine ⟨hc, ?_⟩
  rw [hc]
  simp [List.chain'_cons]

/-- C4 witness: the append-only theorem at a concrete operation list with
non-decreasing timestamps. -/
theorem equityCurve_append_only_witness :
    (([TrackerOp.tick 20 101, TrackerOp.tick 30 99].foldl applyOp
        (PerformanceTracker.init 100 10)).stats.equityCurve =
      ⟨10, 100⟩ :: [TrackerOp.tick 20 101, TrackerOp.tick 30 99].map opPoint) ∧
    List.Chain' (· ≤ ·)
      ((([TrackerOp.tick 20 101, TrackerOp.tick 30 99].foldl applyOp
        (PerformanceTracker.init 100 10)).stats.equityCurve).map (·.timestamp)) :=
  ⟨(equityCurve_append_only 100 10 [TrackerOp.tick 20 101, TrackerOp.tick 30 99]).2.2.1,
   (equityCurve_append_only 100 10 [TrackerOp.tick 20 101, TrackerOp.tick 30 99]).2.2.2
     (by simp [opPoint, List.chain'_cons])⟩

/-! ### C7: Sharpe ratio -/

/-- Spec-side mean of a list of rationals. -/
def meanQ (l : List ℚ) : ℚ := l.sum / l.length

/-- Spec-side population variance (division by n, not n−1). -/
def popVarianceQ (l : List ℚ) : ℚ :=
  (l.map (fun r => (r - meanQ l) ^ 2)).sum / l.length

/-- Spec-side population standard deviation. -/
noncomputable def popStdDevQ (l : List ℚ) : ℝ := Real.sqrt (popVarianceQ l)

/-- C7: the tracker's Sharpe ratio is 0 below two closed trades, is 0 when
the population standard deviation of the trade pnl percentages vanishes (in
particular when all trade returns are identical), and otherwise equals
mean / population standard deviation with no annualization factor. -/
theorem sharpeRatio_spec (trades : List ClosedTrade) :
    (trades.length < 2 → PerformanceTracker.calculateSharpeRatio trades = 0) ∧
    (2 ≤ trades.length → popStdDevQ (trades.map (·.pnlPercentage)) = 0 →
       PerformanceTracker.calculateSharpeRatio trades = 0) ∧
    (2 ≤ trades.length → popStdDevQ (trades.map (·.pnlPercentage)) ≠ 0 →
       PerformanceTracker.calculateSharpeRatio trades =
         ((meanQ (trades.map (·.pnlPercentage)) : ℚ) : ℝ) /
           popStdDevQ (trades.map (·.pnlPercentage))) ∧
    (∀ x : ℚ, (∀ r ∈ trades.map (·.pnlPercentage), r = x) →
       PerformanceTracker.calculateSharpeRatio trades = 0) := by
  unfold PerformanceTracker.calculateSharpeRatio
  set returns := trades.map (·.pnlPercentage) with hret
  have hlenmap : returns.length = trades.length := List.length_map _ _
  refine ⟨?_, ?_, ?_, ?_⟩
  · intro hlen
    rw [if_pos hlen]
  · intro hlen hsd
    rw [if_neg (by omega)]
    dsimp only
    rw [if_pos]
    exact hsd
  · intro hlen hsd
    rw [if_neg (by omega)]
    dsimp only
    simp only [popStdDevQ, popVarianceQ, meanQ] at hsd ⊢
    rw [if_neg hsd]
    norm_num
  · intro x hall
    by_cases hlen : trades.length < 2
    · rw [if_pos hlen]
    · rw [if_neg hlen]
      dsimp only
      rw [if_pos]
      have hn : (returns.length : ℚ) ≠ 0 := by
        rw [hlenmap]
        exact_mod_cast (by omega : trades.length ≠ 0)
      have hsum : returns.sum = (returns.length : ℚ) * x := by
        rw [List.sum_eq_card_nsmul returns x hall, nsmul_eq_mul]
      have hmean : returns.sum / (returns.length : ℚ) = x := by
        rw [hsum, mul_div_cancel_left₀ _ hn]
      have hvar : (returns.map (fun r => (r - returns.sum / (returns.length : ℚ)) ^ 2)).sum = 0 := by
        apply List.sum_eq_zero
        intro y hy
        obtain ⟨r, hr, rfl⟩ := List.mem_map.mp hy
        rw [hmean, hall r hr]
        ring
      rw [hvar]
      simp
  
/-- Shared concrete fixture: a closed winning trade with a 5% return. -/
def sampleClosedTrade : ClosedTrade :=
  { id := "t"
    timestamp := 0
    pair := "BTC/USD"
    action := .sell
    quantity := 1
    price := 100
    value := 100
    fee := 1
    stopLoss := 95
    takeProfit := 110
    reasoning := "r"
    exitTime := 10
    exitPrice := 105
    pnl := 5
    pnlPercentage := 5
    holdingPeriod := 10
    isWin := true }

/-- C7 witness: zero Sharpe for fewer than two trades and for two identical
trades. -/
theorem sharpeRatio_witness :
    PerformanceTracker.calculateSharpeRatio [sampleClosedTrade] = 0 ∧
    PerformanceTracker.calculateSharpeRatio [sampleClosedTrade, sampleClosedTrade] = 0 :=
  ⟨(sharpeRatio_spec [sampleClosedTrade]).1 (by norm_num),
   (sharpeRatio_spec [sampleClosedTrade, sampleClosedTrade]).2.2.2 5
     (by intro r hr; simpa [sampleClosedTrade] using hr)⟩

/-! ### C9: indicator computation error handling -/

/-- C9: the indicator computation fails exactly below 50 candles, with the
insufficient-data message; for at least 50 candles it returns a snapshot;
and it is a pure function — identical input yields an identical snapshot. -/
theorem calculateIndicators_spec :
    (∀ candles : List OHLCV,
       (∃ snap, Indicators.calculateIndicators candles = .ok snap) ↔
         50 ≤ candles.length) ∧
    (∀ candles : List OHLCV, candles.length < 50 →
       Indicators.calculateIndicators candles =
         .error "Not enough candles for indicator calculation (minimum 50 required)") ∧
    (∀ c1 c2 : List OHLCV, c1 = c2 →
       Indicators.calculateIndicators c1 = Indicators.calculateIndicators c2) := by
  refine ⟨?_, ?_, ?_⟩
  · intro candles
    unfold Indicators.calculateIndicators
    by_cases h : candles.length < 50
    · rw [if_pos h]
      constructor
      · rintro ⟨snap, hs⟩
        cases hs
      · intro hge; omega
    · rw [if_neg h]
      constructor
      · intro _; omega
      · intro _; exact ⟨_, rfl⟩
  · intro candles h
    unfold Indicators.calculateIndicators
    rw [if_pos h]
  · intro c1 c2 h
    rw [h]

/-- C9 witness: 40 candles fail with the insufficient-data error, 50 candles
succeed, and equal inputs give equal snapshots. -/
theorem calculateIndicators_witness :
    Indicators.calculateIndicators (List.replicate 40 sampleCandle) =
      .error "Not enough candles for indicator calculation (minimum 50 required)" ∧
    (∃ snap, Indicators.calculateIndicators (List.replicate 50 sampleCandle) = .ok snap) ∧
    Indicators.calculateIndicators [sampleCandle] =
      Indicators.calculateIndicators [sampleCandle] :=
  ⟨calculateIndicators_spec.2.1 (List.replicate 40 sampleCandle) (by simp),
   (calculateIndicators_spec.1 (List.replicate 50 sampleCandle)).mpr (by simp),
   calculateIndicators_spec.2.2 [sampleCandle] [sampleCandle] rfl⟩

/-! ### C2 / C10: circuit-breaker state machine -/

/-- Helper: the position-size check never rejects. -/
theorem checkPositionSize_allowed (params : RiskParameters) (decision : AIDecision) :
    (RiskManager.checkPositionSize params decision).allowed = true := by
  unfold RiskManager.checkPositionSize
  cases decision.quantity with
  | none => rfl
  | some q =>
      dsimp only
      split <;> rfl

/-- Helper: with trading active the auto-recovery prelude leaves the state
untouched and `checkTradeAllowed` coincides with its check sequence. -/
theorem checkTradeAllowed_active (params : RiskParameters) (decision : AIDecision)
    (portfolio : Portfolio) (stats : PerformanceStats) (pos : Option Position)
    (ts : Option Int) (wallClock : Int) (st : RMState)
    (hhalt : st.tradingHalted = false) :
    RiskManager.checkTradeAllowed params decision portfolio stats pos ts wallClock st =
      RiskManager.checkTradeAllowedCore params decision portfolio stats pos ts wallClock st := by
  unfold RiskManager.checkTradeAllowed
  cases ts with
  | none => rfl
  | some t => simp [hhalt]

/-- Helper: while active and with all three halt conditions clear, the risk
state passes through the check sequence unchanged, and a HOLD decision is
allowed. -/
theorem checkTradeAllowedCore_frame (params : RiskParameters) (decision : AIDecision)
    (portfolio : Portfolio) (stats : PerformanceStats) (pos : Option Position)
    (ts : Option Int) (wallClock : Int) (st : RMState)
    (hhalt : st.tradingHalted = false)
    (h1 : stats.consecutiveLosses < params.maxConsecutiveLosses)
    (h2 : |stats.currentDrawdown| / 100 < params.dailyLossLimit)
    (h3 : stats.maxDrawdownPercentage / 100 < params.maxDrawdown) :
    (RiskManager.checkTradeAllowedCore params decision portfolio stats pos ts wallClock st).2 = st ∧
    (decision.action = .hold →
      (RiskManager.checkTradeAllowedCore params decision portfolio stats pos ts wallClock st).1 =
        RiskCheck.ok) := by
  unfold RiskManager.checkTradeAllowedCore
  rw [if_neg (by simp [hhalt])]
  have hc1 : RiskManager.checkConsecutiveLosses params stats = RiskCheck.ok := by
    unfold RiskManager.checkConsecutiveLosses
    rw [if_neg (not_le.mpr h1)]
  have hc2 : RiskManager.checkDailyLossLimit params stats = RiskCheck.ok := by
    unfold RiskManager.checkDailyLossLimit
    rw [if_neg (not_le.mpr h2)]
  have hc3 : RiskManager.checkMaxDrawdown params stats = RiskCheck.ok := by
    unfold RiskManager.checkMaxDrawdown
    rw [if_neg (not_le.mpr h3)]
  rw [hc1, hc2, hc3]
  simp only [RiskCheck.ok, not_true_eq_false, Bool.false_eq_true, if_false]
  constructor
  · cases hact : decision.action with
    | hold => cases pos <;> rfl
    | sell => cases pos <;> rfl
    | buy =>
        dsimp only
        have hsz := checkPositionSize_allowed params decision
        split
        · rename_i hns
          rw [hsz] at hns
        · split
          · rfl
          · cases pos <;> rfl
  · intro hact
    rw [hact]
    cases pos <;> rfl

/-- Helper: while active, a consecutive-loss streak at or over the maximum
makes the check sequence reject with the consecutive-losses reason and halt
trading. -/
theorem checkTradeAllowedCore_haltsOnLosses (params : RiskParameters)
    (decision : AIDecision) (portfolio : Portfolio) (stats : PerformanceStats)
    (pos : Option Position) (ts : Option Int) (wallClock : Int) (st : RMState)
    (hhalt : st.tradingHalted = false)
    (h1 : params.maxConsecutiveLosses ≤ stats.consecutiveLosses) :
    RiskManager.checkTradeAllowedCore params decision portfolio stats pos ts wallClock st =
      (RiskCheck.rejected (.consecutiveLosses stats.consecutiveLosses params.maxConsecutiveLosses),
       RiskManager.haltTrading
         (.consecutiveLosses stats.consecutiveLosses params.maxConsecutiveLosses)
         ts wallClock st) := by
  unfold RiskManager.checkTradeAllowedCore
  rw [if_neg (by simp [hhalt])]
  have hc1 : RiskManager.checkConsecutiveLosses params stats =
      RiskCheck.rejected
        (.consecutiveLosses stats.consecutiveLosses params.maxConsecutiveLosses) := by
    unfold RiskManager.checkConsecutiveLosses
    rw [if_pos h1]
  rw [hc1]
  rfl

/-- Helper: a halted manager whose nonzero recovery window has elapsed at
the passed candle timestamp behaves exactly like a freshly resumed one. -/
theorem checkTradeAllowed_recovers (params : RiskParameters) (decision : AIDecision)
    (portfolio : Portfolio) (stats : PerformanceStats) (pos : Option Position)
    (t : Int) (wallClock : Int) (st : RMState)
    (hhalt : st.tradingHalted = true) (ht : t ≠ 0)
    (hrec : params.circuitBreakerRecoveryMinutes ≠ 0)
    (helapsed : (params.circuitBreakerRecoveryMinutes : Int) * 60 * 1000 ≤
      t - st.haltTimestamp) :
    RiskManager.checkTradeAllowed params decision portfolio stats pos (some t) wallClock st =
      RiskManager.checkTradeAllowedCore params decision portfolio stats pos (some t) wallClock
        ⟨false, none, 0⟩ := by
  unfold RiskManager.checkTradeAllowed
  have hpre : (if st.tradingHalted = true ∧ t ≠ 0
      then RiskManager.checkAutoRecovery params t st else st) = ⟨false, none, 0⟩ := by
    rw [if_pos ⟨hhalt, ht⟩]
    unfold RiskManager.checkAutoRecovery
    rw [if_neg (by simp [hhalt, hrec])]
    dsimp only
    rw [if_pos helapsed]
    unfold RiskManager.resumeTrading
    rw [if_pos hhalt]
  dsimp only
  rw [hpre]

/-- Helper: while active, with the loss streak clear but the daily-loss
proxy at or over its limit, the check sequence rejects with the daily-loss
reason and halts trading. -/
theorem checkTradeAllowedCore_haltsOnDailyLoss (params : RiskParameters)
    (decision : AIDecision) (portfolio : Portfolio) (stats : PerformanceStats)
    (pos : Option Position) (ts : Option Int) (wallClock : Int) (st : RMState)
    (hhalt : st.tradingHalted = false)
    (h1 : stats.consecutiveLosses < params.maxConsecutiveLosses)
    (h2 : params.dailyLossLimit ≤ |stats.currentDrawdown| / 100) :
    RiskManager.checkTradeAllowedCore params decision portfolio stats pos ts wallClock st =
      (RiskCheck.rejected (.dailyLossLimit (|stats.currentDrawdown| / 100) params.dailyLossLimit),
       RiskManager.haltTrading
         (.dailyLossLimit (|stats.currentDrawdown| / 100) params.dailyLossLimit)
         ts wallClock st) := by
  unfold RiskManager.checkTradeAllowedCore
  rw [if_neg (by simp [hhalt])]
  have hc1 : RiskManager.checkConsecutiveLosses params stats = RiskCheck.ok := by
    unfold RiskManager.checkConsecutiveLosses
    rw [if_neg (not_le.mpr h1)]
  have hc2 : RiskManager.checkDailyLossLimit params stats =
      RiskCheck.rejected
        (.dailyLossLimit (|stats.currentDrawdown| / 100) params.dailyLossLimit) := by
    unfold RiskManager.checkDailyLossLimit
    rw [if_pos h2]
  rw [hc1, hc2]
  rfl

/-- Helper: while active, with the loss streak and daily-loss proxy clear
but the max-drawdown fraction at or over its ceiling, the check sequence
rejects with the max-drawdown reason and halts trading. -/
theorem checkTradeAllowedCore_haltsOnDrawdown (params : RiskParameters)
    (decision : AIDecision) (portfolio : Portfolio) (stats : PerformanceStats)
    (pos : Option Position) (ts : Option Int) (wallClock : Int) (st : RMState)
    (hhalt : st.tradingHalted = false)
    (h1 : stats.consecutiveLosses < params.maxConsecutiveLosses)
    (h2 : |stats.currentDrawdown| / 100 < params.dailyLossLimit)
    (h3 : params.maxDrawdown ≤ stats.maxDrawdownPercentage / 100) :
    RiskManager.checkTradeAllowedCore params decision portfolio stats pos ts wallClock st =
      (RiskCheck.rejected (.maxDrawdownExceeded stats.maxDrawdownPercentage params.maxDrawdown),
       RiskManager.haltTrading
         (.maxDrawdownExceeded stats.maxDrawdownPercentage params.maxDrawdown)
         ts wallClock st) := by
  unfold RiskManager.checkTradeAllowedCore
  rw [if_neg (by simp [hhalt])]
  have hc1 : RiskManager.checkConsecutiveLosses params stats = RiskCheck.ok := by
    unfold RiskManager.checkConsecutiveLosses
    rw [if_neg (not_le.mpr h1)]
  have hc2 : RiskManager.checkDailyLossLimit params stats = RiskCheck.ok := by
    unfold RiskManager.checkDailyLossLimit
    rw [if_neg (not_le.mpr h2)]
  have hc3 : RiskManager.checkMaxDrawdown params stats =
      RiskCheck.rejected
        (.maxDrawdownExceeded stats.maxDrawdownPercentage params.maxDrawdown) := by
    unfold RiskManager.checkMaxDrawdown
    rw [if_pos h3]
  rw [hc1, hc2, hc3]
  rfl

/-- C2 amended: with the streak at/over the configured maximum and trading
active, the next `checkTradeAllowed` call is rejected with the
consecutive-losses reason and trading halts; a later call whose candle
timestamp is at least the recovery window after the halt first clears the
halted flag (lazily, from the passed timestamp, not wall-clock) and returns
allowed = true provided the passed statistics no longer trigger any halt
condition and the decision passes the remaining checks (here: HOLD) — with
unchanged statistics the call re-halts instead, see the counterexample. -/
theorem circuitBreaker_halt_and_recovery (params : RiskParameters)
    (decision : AIDecision) (portfolio : Portfolio) (stats : PerformanceStats)
    (pos : Option Position) (wallClock : Int) (st : RMState) :
    (∀ ts, st.tradingHalted = false →
       params.maxConsecutiveLosses ≤ stats.consecutiveLosses →
       ((RiskManager.checkTradeAllowed params decision portfolio stats pos ts wallClock st).1.allowed = false ∧
        (RiskManager.checkTradeAllowed params decision portfolio stats pos ts wallClock st).1.reason =
          some (.consecutiveLosses stats.consecutiveLosses params.maxConsecutiveLosses) ∧
        (RiskManager.checkTradeAllowed params decision portfolio stats pos ts wallClock st).2.tradingHalted = true)) ∧
    (∀ t : Int, st.tradingHalted = true → t ≠ 0 →
       params.circuitBreakerRecoveryMinutes ≠ 0 →
       (params.circuitBreakerRecoveryMinutes : Int) * 60 * 1000 ≤ t - st.haltTimestamp →
       stats.consecutiveLosses < params.maxConsecutiveLosses →
       |stats.currentDrawdown| / 100 < params.dailyLossLimit →
       stats.maxDrawdownPercentage / 100 < params.maxDrawdown →
       decision.action = .hold →
       ((RiskManager.checkTradeAllowed params decision portfolio stats pos (some t) wallClock st).1.allowed = true ∧
        (RiskManager.checkTradeAllowed params decision portfolio stats pos (some t) wallClock st).2.tradingHalted = false)) := by
  constructor
  · intro ts hhalt h1
    rw [checkTradeAllowed_active _ _ _ _ _ _ _ _ hhalt,
        checkTradeAllowedCore_haltsOnLosses _ _ _ _ _ _ _ _ hhalt h1]
    refine ⟨rfl, rfl, ?_⟩
    unfold RiskManager.haltTrading
    rfl
  · intro t hhalt ht hrec helapsed h1 h2 h3 hact
    rw [checkTradeAllowed_recovers _ _ _ _ _ _ _ _ hhalt ht hrec helapsed]
    have hframe := checkTradeAllowedCore_frame params decision portfolio stats pos
      (some t) wallClock ⟨false, none, 0⟩ rfl h1 h2 h3
    refine ⟨?_, ?_⟩
    · rw [hframe.2 hact]
      rfl
    · rw [hframe.1]

/-- Shared concrete fixture: a plain HOLD decision. -/
def sampleHold : AIDecision := ⟨.hold, 1, none, none, none, "hold"⟩

/-- Shared concrete fixture: risk parameters with a 60-minute circuit
breaker recovery window. -/
def recoveryParams : RiskParameters :=
  { defaultRiskParams with circuitBreakerRecoveryMinutes := 60 }

/-- Shared concrete fixture: the statistics of a fresh tracker. -/
def freshStats : PerformanceStats := (PerformanceTracker.init 10000 0).stats

/-- Shared concrete fixture: fresh statistics after 4 consecutive losing
trades (streak counter only; the other fields do not matter here). -/
def lossStats : PerformanceStats := { freshStats with consecutiveLosses := 4 }

/-- C2 counterexample: after the halt at timestamp 1000 (4 consecutive
losses, max 3, 60-minute recovery), a call at timestamp 3601000 — exactly 60
minutes later — clears the halted flag but immediately re-halts on the still
unchanged loss streak and returns allowed = false, not allowed = true. -/
theorem circuitBreaker_relapse :
    (RiskManager.checkTradeAllowed recoveryParams sampleHold samplePortfolio lossStats
        none (some 1000) 0 RMState.initial).2 =
      ⟨true, some (.consecutiveLosses 4 3), 1000⟩ ∧
    (RiskManager.checkTradeAllowed recoveryParams sampleHold samplePortfolio lossStats
        none (some 3601000) 0 ⟨true, some (.consecutiveLosses 4 3), 1000⟩).1.allowed = false := by
  have h4 : recoveryParams.maxConsecutiveLosses ≤ lossStats.consecutiveLosses := by
    norm_num [recoveryParams, defaultRiskParams, lossStats, freshStats, PerformanceTracker.init]
  have hproj : lossStats.consecutiveLosses = 4 := by
    norm_num [lossStats, freshStats, PerformanceTracker.init]
  have hproj2 : recoveryParams.maxConsecutiveLosses = 3 := by
    norm_num [recoveryParams, defaultRiskParams]
  constructor
  · rw [checkTradeAllowed_active _ _ _ _ _ _ _ _ rfl,
        checkTradeAllowedCore_haltsOnLosses _ _ _ _ _ _ _ _ rfl h4]
    unfold RiskManager.haltTrading
    simp [RMState.initial, hproj, hproj2]
  · rw [checkTradeAllowed_recovers _ _ _ _ _ _ _ _ rfl (by norm_num)
        (by norm_num [recoveryParams, defaultRiskParams])
        (by norm_num [recoveryParams, defaultRiskParams]),
      checkTradeAllowedCore_haltsOnLosses _ _ _ _ _ _ _ _ rfl h4]
    rfl

/-- C2 witness: the halt fires on the 4th consecutive loss, and with a
cleared streak the 60-minutes-later call is allowed again. -/
theorem circuitBreaker_witness :
    ((RiskManager.checkTradeAllowed recoveryParams sampleHold samplePortfolio lossStats
        none (some 1000) 0 RMState.initial).1.allowed = false ∧
     (RiskManager.checkTradeAllowed recoveryParams sampleHold samplePortfolio lossStats
        none (some 1000) 0 RMState.initial).2.tradingHalted = true) ∧
    ((RiskManager.checkTradeAllowed recoveryParams sampleHold samplePortfolio freshStats
        none (some 3601000) 0 ⟨true, some (.consecutiveLosses 4 3), 1000⟩).1.allowed = true ∧
     (RiskManager.checkTradeAllowed recoveryParams sampleHold samplePortfolio freshStats
        none (some 3601000) 0 ⟨true, some (.consecutiveLosses 4 3), 1000⟩).2.tradingHalted = false) := by
  have hmain1 := (circuitBreaker_halt_and_recovery recoveryParams sampleHold samplePortfolio
    lossStats none 0 RMState.initial).1 (some 1000) rfl
    (by norm_num [recoveryParams, defaultRiskParams, lossStats, freshStats, PerformanceTracker.init])
  have hmain2 := (circuitBreaker_halt_and_recovery recoveryParams sampleHold samplePortfolio
    freshStats none 0 ⟨true, some (.consecutiveLosses 4 3), 1000⟩).2 3601000 rfl
    (by norm_num) (by norm_num [recoveryParams, defaultRiskParams])
    (by norm_num [recoveryParams, defaultRiskParams])
    (by norm_num [recoveryParams, defaultRiskParams, freshStats, PerformanceTracker.init])
    (by norm_num [recoveryParams, defaultRiskParams, freshStats, PerformanceTracker.init])
    (by norm_num [recoveryParams, defaultRiskParams, freshStats, PerformanceTracker.init])
    rfl
  exact ⟨⟨hmain1.1, hmain1.2.2⟩, hmain2⟩

/-- Shared concrete fixture: an open long position. -/
def samplePosition : Position :=
  { symbol := "BTC/USD"
    entryPrice := 100
    quantity := 25
    side := .long
    entryTime := 1000
    stopLoss := 98
    takeProfit := 103
    currentPrice := 100
    unrealizedPnL := 0 }

/-- C10: a non-circuit-breaker rejection (insufficient cash, BUY with an
open position, SELL with none) leaves the risk state untouched — halted
stays false and reason/timestamp keep their prior values — and only the
consecutive-loss, daily-loss and max-drawdown checks ever set the halted
flag. -/
theorem riskState_frame (params : RiskParameters) (decision : AIDecision)
    (portfolio : Portfolio) (stats : PerformanceStats) (pos : Option Position)
    (ts : Option Int) (wallClock : Int) (st : RMState)
    (hhalt : st.tradingHalted = false) :
    (stats.consecutiveLosses < params.maxConsecutiveLosses →
     |stats.currentDrawdown| / 100 < params.dailyLossLimit →
     stats.maxDrawdownPercentage / 100 < params.maxDrawdown →
     (RiskManager.checkTradeAllowed params decision portfolio stats pos ts wallClock st).2 = st) ∧
    (∀ r a : ℚ,
       ((RiskManager.checkTradeAllowed params decision portfolio stats pos ts wallClock st).1.reason =
          some (.insufficientCash r a) ∨
        (RiskManager.checkTradeAllowed params decision portfolio stats pos ts wallClock st).1.reason =
          some .positionAlreadyOpen ∨
        (RiskManager.checkTradeAllowed params decision portfolio stats pos ts wallClock st).1.reason =
          some .noOpenPosition) →
       (RiskManager.checkTradeAllowed params decision portfolio stats pos ts wallClock st).2 = st) ∧
    ((RiskManager.checkTradeAllowed params decision portfolio stats pos ts wallClock st).2.tradingHalted = true →
     params.maxConsecutiveLosses ≤ stats.consecutiveLosses ∨
     params.dailyLossLimit ≤ |stats.currentDrawdown| / 100 ∨
     params.maxDrawdown ≤ stats.maxDrawdownPercentage / 100) := by
  rw [checkTradeAllowed_active _ _ _ _ _ _ _ _ hhalt]
  have hframe : stats.consecutiveLosses < params.maxConsecutiveLosses →
      |stats.currentDrawdown| / 100 < params.dailyLossLimit →
      stats.maxDrawdownPercentage / 100 < params.maxDrawdown →
      (RiskManager.checkTradeAllowedCore params decision portfolio stats pos ts wallClock st).2 = st :=
    fun h1 h2 h3 =>
      (checkTradeAllowedCore_frame params decision portfolio stats pos ts wallClock st hhalt h1 h2 h3).1
  refine ⟨hframe, ?_, ?_⟩
  · intro r a hreason
    by_cases h1 : stats.consecutiveLosses < params.maxConsecutiveLosses
    · by_cases h2 : |stats.currentDrawdown| / 100 < params.dailyLossLimit
      · by_cases h3 : stats.maxDrawdownPercentage / 100 < params.maxDrawdown
        · exact hframe h1 h2 h3
        · rw [checkTradeAllowedCore_haltsOnDrawdown _ _ _ _ _ _ _ _ hhalt h1 h2
            (not_lt.mp h3)] at hreason
          simp [RiskCheck.rejected] at hreason
      · rw [checkTradeAllowedCore_haltsOnDailyLoss _ _ _ _ _ _ _ _ hhalt h1
          (not_lt.mp h2)] at hreason
        simp [RiskCheck.rejected] at hreason
    · rw [checkTradeAllowedCore_haltsOnLosses _ _ _ _ _ _ _ _ hhalt
        (not_lt.mp h1)] at hreason
      simp [RiskCheck.rejected] at hreason
  · intro hhalted
    by_contra hnone
    push_neg at hnone
    obtain ⟨hn1, hn2, hn3⟩ := hnone
    rw [hframe hn1 hn2 hn3] at hhalted
    rw [hhalt] at hhalted
    exact Bool.false_ne_true hhalted

/-- C10 witness: a BUY with a position already open is rejected while the
risk state passes through unchanged, and a halted successor state does imply
one of the three halt conditions. -/
theorem riskState_frame_witness :
    (RiskManager.checkTradeAllowed defaultRiskParams sampleBuy samplePortfolio freshStats
        (some samplePosition) (some 1000) 0 RMState.initial).2 = RMState.initial ∧
    (defaultRiskParams.maxConsecutiveLosses ≤ lossStats.consecutiveLosses ∨
     defaultRiskParams.dailyLossLimit ≤ |lossStats.currentDrawdown| / 100 ∨
     defaultRiskParams.maxDrawdown ≤ lossStats.maxDrawdownPercentage / 100) := by
  have h := riskState_frame defaultRiskParams sampleBuy samplePortfolio freshStats
    (some samplePosition) (some 1000) 0 RMState.initial rfl
  have h2 := riskState_frame defaultRiskParams sampleHold samplePortfolio lossStats
    none (some 1000) 0 RMState.initial rfl
  refine ⟨h.1 ?_ ?_ ?_, h2.2.2 ?_⟩
  · norm_num [freshStats, defaultRiskParams, PerformanceTracker.init]
  · norm_num [freshStats, defaultRiskParams, PerformanceTracker.init]
  · norm_num [freshStats, defaultRiskParams, PerformanceTracker.init]
  · rw [checkTradeAllowed_active _ _ _ _ _ _ _ _ rfl,
      checkTradeAllowedCore_haltsOnLosses _ _ _ _ _ _ _ _ rfl
        (by norm_num [defaultRiskParams, lossStats, freshStats, PerformanceTracker.init])]
    unfold RiskManager.haltTrading
    rfl

end Trader
